import Mathlib

/-!
# Verification of the OpenSubmit executor job harness

A shallow embedding of `src/executor/opensubmitexec/job.py` (the `Job` class:
validator orchestration, failure classification, result reporting, the
build/make/compile steps and the program-running helpers), with theorems
settling the specification's claims about it.

External collaborators of `job.py` (the modules `server`, `compiler`,
`execution`, `running`, `exceptions`, `filesystem` and the `pexpect` library)
are not part of the embedded code: their observable outcomes (a tool `Result`,
an exception raised by a running program, and so on) enter the embedded
functions as explicit parameters, and calls to them are recorded in traces.
-/

namespace OpenSubmit

/-- `UNSPECIFIC_ERROR = -9999` (job.py line 21): the sentinel error code. -/
def UNSPECIFIC_ERROR : Int := -9999

/-- Outcome of one tool invocation (the `Result` objects produced by
`call_make`, `call_compiler` and `shell_execution`): whether it was ok,
its captured combined output. Only `is_ok` and the output are consulted by
`job.py`. -/
structure Result where
  is_ok : Bool
  output : String
deriving Repr, DecidableEq

/-- The `real_exception` field of a `RunningProgramException`: the underlying
pexpect failure. `job.py` distinguishes `pexpect.EOF`, `pexpect.TIMEOUT`
and anything else (carried here with its `str(...)` text). -/
inductive RealException where
  | eof
  | timeoutExc
  | otherReal (text : String)
deriving Repr, DecidableEq

/-- What `job.py` reads from `e.instance._spawn` of a
`RunningProgramException`: `exitstatus` (an integer once the child exited,
`None` — here `none` — otherwise) and `before`, the output captured so far
(already decoded to text). -/
structure SpawnState where
  exitstatus : Option Int
  before : String
deriving Repr, DecidableEq

/-- The Python exceptions (all subclasses of `Exception`) that `job.py`
raises or inspects:

* `runningProgramExc` — `RunningProgramException`, wrapping a pexpect failure
  together with the spawn it happened on (job.py lines 107-122);
* `jobException` — `JobException`. Modelled from the spec: `exceptions.py` is
  not under src/; per the spec a harness-raised build/tool failure carries
  pre-formatted submitter/grader texts taken verbatim into the report, so the
  constructor carries those two texts (read as `e.info_student` /
  `e.info_tutor` at job.py lines 125-126);
* `fileNotFoundError` — `FileNotFoundError` (raised at job.py line 179);
* `attributeError` — `AttributeError` from a failed attribute lookup;
* `assertionError` — `AssertionError` from a failing `assert`;
* `typeError` — `TypeError`, e.g. from concatenating a list with a non-list;
* `otherException` — any other `Exception`, carried with its `str(...)` text. -/
inductive PyException where
  | runningProgramExc (real : RealException) (spawn : SpawnState)
  | jobException (info_student : String) (info_tutor : String)
  | fileNotFoundError (msg : String)
  | attributeError (attr : String)
  | assertionError
  | typeError (msg : String)
  | otherException (text : String)
deriving Repr, DecidableEq

/-- `str(e)` for the exceptions that reach the `else` branch of the
classifier (everything that is neither a `RunningProgramException` nor a
`JobException`). For the named builtin exceptions Python renders the carried
message. -/
def PyException.str : PyException → String
  | .runningProgramExc _ _ => "RunningProgramException"
  | .jobException s _ => s
  | .fileNotFoundError msg => msg
  | .attributeError attr => "'Job' object has no attribute '" ++ attr ++ "'"
  | .assertionError => ""
  | .typeError msg => msg
  | .otherException text => text

/-- `str(e.real_exception)` for the fallback pexpect branch. -/
def RealException.str : RealException → String
  | .eof => "End Of File (EOF)"
  | .timeoutExc => "Timeout exceeded."
  | .otherReal text => text

/-- One invocation of `Job._send_result` (job.py lines 141-155): the
submitter-facing text, the grader-facing text and the numeric error code it
was called with. With the job online, each such invocation is one delivery
to the central authority. -/
structure SentResult where
  info_student : String
  info_tutor : String
  error_code : Int
deriving Repr, DecidableEq

/-- The mutable state `_run_validate` and `_send_result` touch: the job's
`result_sent` flag, the trace of `_send_result` invocations (deliveries),
and `sys.path` (the code-search path, a process-global list of directories). -/
structure JobState where
  result_sent : Bool
  sent : List SentResult
  path : List String
deriving Repr, DecidableEq

/-- `Job._send_result(info_student, info_tutor, error_code)` (job.py lines
141-155): builds the post data, transmits when online, and sets
`self.result_sent = True` unconditionally — note it never checks whether a
result was already sent. -/
def send_result (s : JobState) (info_student info_tutor : String)
    (error_code : Int) : JobState :=
  { s with
    sent := s.sent ++ [⟨info_student, info_tutor, error_code⟩]
    result_sent := true }

/-- `Job.send_fail_result` (job.py lines 157-158). -/
def send_fail_result (s : JobState) (info_student info_tutor : String) :
    JobState :=
  send_result s info_student info_tutor UNSPECIFIC_ERROR

/-- `Job.send_pass_result` with explicit texts (job.py lines 160-163). -/
def send_pass_result (s : JobState) (info_student info_tutor : String) :
    JobState :=
  send_result s info_student info_tutor 0

/-- `Job.send_pass_result()` at its default arguments
`info_student="All tests passed. Awesome!"`, `info_tutor="All tests passed."`. -/
def send_pass_result_default (s : JobState) : JobState :=
  send_pass_result s "All tests passed. Awesome!" "All tests passed."

/-- The body of the `except Exception as e:` handler of `Job._run_validate`
(job.py lines 102-131): classify the caught exception into the
(submitter text, grader text, error code) triple that is then passed to
`_send_result`. `timeout` is `self.timeout`. Faithful points:

* the exit status is adopted only under Python truthiness
  (`if e.instance._spawn.exitstatus:`, line 110) — so a present exit status
  of `0` keeps the sentinel;
* the timeout texts interpolate `self.timeout` via `format` (lines 115-116),
  rendered here with `toString`;
* the captured output is appended to both texts of every
  `RunningProgramException` branch (lines 120-122);
* the `Unkown` typo of line 119 is the source's. -/
def classifiedSent (timeout : Nat) (e : PyException) : SentResult :=
  match e with
  | .runningProgramExc real spawn =>
    let error_code : Int :=
      match real with
      | .eof =>
        match spawn.exitstatus with
        | some n => if n ≠ 0 then n else UNSPECIFIC_ERROR
        | none => UNSPECIFIC_ERROR
      | _ => UNSPECIFIC_ERROR
    let texts : String × String :=
      match real with
      | .eof =>
        ("Your program terminated unexpectedly.",
         "The student program terminated unexpectedly.")
      | .timeoutExc =>
        ("The execution of your program was cancelled, since it took longer than "
           ++ toString timeout ++ " seconds. ",
         "The execution of the program was cancelled due to the timeout of "
           ++ toString timeout ++ " seconds. ")
      | .otherReal _ =>
        ("Unexpected problem during the execution of your program. "
           ++ real.str,
         "Unkown exception during the execution of the student program. "
           ++ real.str)
    ⟨texts.1 ++ "\n\nOutput so far: " ++ spawn.before,
     texts.2 ++ "\n\nOutput so far: " ++ spawn.before,
     error_code⟩
  | .jobException info_student info_tutor =>
    ⟨info_student, info_tutor, UNSPECIFIC_ERROR⟩
  | e =>
    ⟨"Internal problem while validating your submission. " ++ e.str,
     "Unknown exception while running the validator. " ++ e.str,
     UNSPECIFIC_ERROR⟩

/-- An explicit report call the validator script makes on the job while it
runs (the public reporting entry points of job.py usable from validator
code). -/
inductive ValidatorAct where
  | passDefault
  | passResult (info_student info_tutor : String)
  | failResult (info_student info_tutor : String)
deriving Repr, DecidableEq

/-- How `module.validate(self)` ends: a normal return, or an exception
propagating out of the validator's entry point. -/
inductive ValidatorOutcome where
  | normal
  | raises (e : PyException)
deriving Repr, DecidableEq

/-- One run of the third-party validator entry point, abstracted to what it
does to the job: the explicit report calls it performs (in order, all before
its end) and how it ends. -/
structure ValidatorRun where
  acts : List ValidatorAct
  outcome : ValidatorOutcome
deriving Repr, DecidableEq

/-- Effect of one explicit report call on the job state. -/
def runAct (s : JobState) : ValidatorAct → JobState
  | .passDefault => send_pass_result_default s
  | .passResult st tt => send_pass_result s st tt
  | .failResult st tt => send_fail_result s st tt

/-- `Job._run_validate` (job.py lines 86-139), for a job whose working
directory is `wd` and whose `self.timeout` is `timeout`, run against a
validator behaving as `v`, from state `s0`. Faithful control flow:

* `sys.path = [self.working_dir] + old_path` before the import (line 92);
* the `try` wraps only `module.validate(self)` (lines 100-101); the handler
  catches `Exception`, classifies, calls `_send_result` and `return`s
  (lines 102-133) — so the `sys.path = old_path` rollback of line 139 is
  NOT executed on this path;
* on a normal return, `send_pass_result()` fires only when
  `self.result_sent` is still false (lines 135-137), then the path is
  rolled back (line 139).

The `Except` result records whether an exception propagates out of
`_run_validate` itself; the handler's `match` is total over the modelled
`Exception` hierarchy, which is what `except Exception` catches. -/
def run_validate (wd : String) (timeout : Nat) (v : ValidatorRun)
    (s0 : JobState) : Except PyException JobState :=
  let old_path := s0.path
  let s1 : JobState := { s0 with path := wd :: old_path }
  let s2 := v.acts.foldl runAct s1
  match v.outcome with
  | .raises e =>
    let c := classifiedSent timeout e
    Except.ok (send_result s2 c.info_student c.info_tutor c.error_code)
  | .normal =>
    let s3 := if s2.result_sent then s2 else send_pass_result_default s2
    Except.ok { s3 with path := old_path }

/-- `has_file(dir, name)`. Modelled from the spec: `filesystem.py` is not
under src/; per the spec the working directory is consulted through its
listing, so a directory is its list of entry names and `has_file` is
membership. -/
def has_file (dircontent : List String) (name : String) : Bool :=
  dircontent.contains name

/-- `JobException(result)` as constructed at job.py lines 198 and 207.
Modelled from the spec: `exceptions.py` is not under src/; the spec says a
harness-raised build/tool failure carries pre-formatted submitter/grader
text that includes the tool's captured output, so both texts are rendered
from the `Result`'s output. No theorem below depends on this rendering. -/
def jobExceptionOfResult (r : Result) : PyException :=
  .jobException r.output r.output

/-- `Job.run_configure(mandatory)` (job.py lines 173-186), for a working
directory whose listing is `dircontent`. `configureOutcome` is what the
external `RunningProgram(self, 'configure')` / `expect_end()` pair does:
`none` when it completes, `some e` when it raises `e`. Faithful point: the
`FileNotFoundError` of line 179 is raised BEFORE the `try`, unconditionally —
the `mandatory` flag is only consulted in the `except` clause of lines
184-186. -/
def run_configure (dircontent : List String)
    (configureOutcome : Option PyException) (mandatory : Bool) :
    Except PyException Unit :=
  if ¬ has_file dircontent "configure" then
    Except.error
      (.fileNotFoundError "Could not find a configure script for execution.")
  else
    match configureOutcome with
    | none => Except.ok ()
    | some e => if mandatory then Except.error e else Except.ok ()

/-- `Job.run_make(mandatory)` (job.py lines 191-198): `makeResult` is what
the external `call_make(self.working_dir)` returned. -/
def run_make (makeResult : Result) (mandatory : Bool) :
    Except PyException Unit :=
  if mandatory ∧ ¬ makeResult.is_ok then
    Except.error (jobExceptionOfResult makeResult)
  else Except.ok ()

/-- `Job.run_compiler(...)` (job.py lines 200-207): `compileResult` is what
the external `call_compiler(...)` returned. Always mandatory. -/
def run_compiler (compileResult : Result) : Except PyException Unit :=
  if ¬ compileResult.is_ok then
    Except.error (jobExceptionOfResult compileResult)
  else Except.ok ()

/-- `Job.run_build(...)` (job.py lines 209-214):
`run_configure(mandatory=False)`, then `run_make(mandatory=False)`, then
`run_compiler(...)`. -/
def run_build (dircontent : List String)
    (configureOutcome : Option PyException) (makeResult compileResult : Result) :
    Except PyException Unit := do
  run_configure dircontent configureOutcome false
  run_make makeResult false
  run_compiler compileResult

/-- The attribute names defined on a `Job` instance: the class attributes of
job.py lines 29-65, the `validator_script_name` property (line 70) and the
methods. Transcribed from the class body — note there is no attribute named
`config`; the configuration is stored as `_config` (line 30). -/
def jobAttributes : List String :=
  ["_config", "_online", "submission_url", "validator_url", "working_dir",
   "timeout", "submission_id", "file_id", "result_sent", "action",
   "submitter_name", "submitter_student_id", "author_names",
   "submitter_studyprogram", "course", "assignment",
   "_validator_import_name", "validator_script_name"]

/-- Python attribute lookup `self.<name>` on a `Job`: succeeds when the
attribute exists, raises `AttributeError` otherwise. -/
def getattrJob (name : String) : Except PyException Unit :=
  if jobAttributes.contains name then Except.ok ()
  else Except.error (.attributeError name)

/-- The externally observable calls `spawn_program` / `run_program` make:
the `kill_longrunning(...)` call and the start of the requested program. -/
inductive RunEvent where
  | killLongrunning
  | programStart
deriving Repr, DecidableEq

/-- `Job.spawn_program(name, arguments, timeout, exclusive)` (job.py lines
216-227), reduced to its observable effects: the trace of external calls
made, and the exception terminating it early, if any. Faithful point: under
`exclusive`, the call is `kill_longrunning(self.config)` (line 225) — the
argument `self.config` is evaluated first, and `Job` has no attribute
`config`. -/
def spawn_program (exclusive : Bool) : List RunEvent × Option PyException :=
  if exclusive then
    match getattrJob "config" with
    | Except.error e => ([], some e)
    | Except.ok _ => ([.killLongrunning, .programStart], none)
  else ([.programStart], none)

/-- A Python value, as far as `run_program`'s argument handling inspects
one: strings, integers, booleans, `None`, lists, and class objects (such as
the builtins `list` and `bool`). -/
inductive PyVal where
  | str (s : String)
  | int (n : Int)
  | boolV (b : Bool)
  | noneV
  | listV (xs : List PyVal)
  | typeV (className : String)
deriving Repr

/-- Python truthiness: `None` and `False` are falsy, numbers and strings and
lists are truthy unless zero/empty, class objects are always truthy. -/
def pyTruthy : PyVal → Bool
  | .str s => ¬ s.isEmpty
  | .int n => n ≠ 0
  | .boolV b => b
  | .noneV => false
  | .listV xs => ¬ xs.isEmpty
  | .typeV _ => true

/-- `type(v)`: the class object of a value. -/
def pyType : PyVal → PyVal
  | .str _ => .typeV "str"
  | .int _ => .typeV "int"
  | .boolV _ => .typeV "bool"
  | .noneV => .typeV "NoneType"
  | .listV _ => .typeV "list"
  | .typeV _ => .typeV "type"

/-- The expression `arguments is list`: identity comparison with the builtin
class object `list`; its value is a Python bool, true only when `arguments`
is that very class object. -/
def pyIsList : PyVal → PyVal
  | .typeV className => .boolV (className == "list")
  | _ => .boolV false

/-- `x + y` on Python values as `run_program` uses it: list concatenation;
any other combination raises `TypeError`. -/
def pyAdd : PyVal → PyVal → Except PyException PyVal
  | .listV xs, .listV ys => Except.ok (.listV (xs ++ ys))
  | _, b =>
    Except.error (.typeError ("can only concatenate list (not \""
      ++ (match pyType b with | .typeV c => c | _ => "?") ++ "\") to list"))

/-- The argument-handling prefix of `Job.run_program` (job.py lines
238-244): wrap a bare string name into a list, and when `arguments` is
truthy run `assert(type(arguments is list))` — note the misplaced
parenthesis: the asserted expression is `type(arguments is list)`, the class
`bool`, which is always truthy — then concatenate `name + arguments`. -/
def run_program_cmdline (name arguments : PyVal) :
    Except PyException PyVal :=
  let name' := match name with
    | .str s => .listV [.str s]
    | v => v
  if pyTruthy arguments then
    if pyTruthy (pyType (pyIsList arguments)) then pyAdd name' arguments
    else Except.error .assertionError
  else Except.ok name'

/-- `Job.run_program(name, arguments, timeout, exclusive)` (job.py lines
229-251), reduced to its observable effects: the argument handling above,
then under `exclusive` the `kill_longrunning(self.config)` call (line 247,
same `self.config` lookup as `spawn_program`), then `shell_execution`
(whose returned `Result` is the parameter `execResult`), raising
`JobException(result)` when it is not ok. Returns the trace of external
calls and the exception terminating the call, if any. -/
def run_program (name arguments : PyVal) (exclusive : Bool)
    (execResult : Result) : List RunEvent × Option PyException :=
  match run_program_cmdline name arguments with
  | Except.error e => ([], some e)
  | Except.ok _ =>
    if exclusive then
      match getattrJob "config" with
      | Except.error e => ([], some e)
      | Except.ok _ =>
        ([.killLongrunning, .programStart],
         if execResult.is_ok then none
         else some (jobExceptionOfResult execResult))
    else
      ([.programStart],
       if execResult.is_ok then none
       else some (jobExceptionOfResult execResult))

/-- `Job.ensure_files(filenames)` (job.py lines 262-273), for a working
directory whose `os.listdir` is `dircontent`: the loop returns `False` on
the first requested name missing from the listing, `True` otherwise. A pure
query: it only reads the listing. -/
def ensure_files (dircontent : List String) (filenames : List String) :
    Bool :=
  filenames.all (fun fname => dircontent.contains fname)

/-! ## Helper lemmas on the reporting state -/

theorem runAct_path (s : JobState) (a : ValidatorAct) :
    (runAct s a).path = s.path := by
  cases a <;> rfl

theorem runAct_result_sent (s : JobState) (a : ValidatorAct) :
    (runAct s a).result_sent = true := by
  cases a <;> rfl

theorem runAct_sent_length (s : JobState) (a : ValidatorAct) :
    (runAct s a).sent.length = s.sent.length + 1 := by
  cases a <;>
    simp [runAct, send_pass_result_default, send_pass_result,
      send_fail_result, send_result]

theorem foldl_runAct_path (acts : List ValidatorAct) (s : JobState) :
    (acts.foldl runAct s).path = s.path := by
  induction acts generalizing s with
  | nil => rfl
  | cons a rest ih => simpa [List.foldl_cons, runAct_path] using ih (runAct s a)

theorem foldl_runAct_sent_length (acts : List ValidatorAct) (s : JobState) :
    (acts.foldl runAct s).sent.length = s.sent.length + acts.length := by
  induction acts generalizing s with
  | nil => rfl
  | cons a rest ih =>
    have := ih (runAct s a)
    simp only [List.foldl_cons, this, runAct_sent_length, List.length_cons]
    omega

theorem foldl_runAct_result_sent_mono (acts : List ValidatorAct)
    (s : JobState) (h : s.result_sent = true) :
    (acts.foldl runAct s).result_sent = true := by
  induction acts generalizing s with
  | nil => exact h
  | cons a rest ih =>
    simpa [List.foldl_cons] using ih (runAct s a) (runAct_result_sent s a)

theorem foldl_runAct_result_sent_of_ne (acts : List ValidatorAct)
    (s : JobState) (h : acts ≠ []) :
    (acts.foldl runAct s).result_sent = true := by
  cases acts with
  | nil => exact absurd rfl h
  | cons a rest =>
    simpa [List.foldl_cons] using
      foldl_runAct_result_sent_mono rest (runAct s a) (runAct_result_sent s a)

/-! ## Claims about `_run_validate` -/

/-- C1 counterexample: a validator that explicitly reports a pass result and
then raises makes `_run_validate` deliver a SECOND result: the run performs
two `_send_result` invocations, so "at most one result is delivered per run,
even if the validator itself called an explicit report function before
failing" is false on the code — the handler of lines 102-133 calls
`_send_result` without consulting `result_sent`. -/
theorem runValidate_double_send_cex :
    ((run_validate "/work/" 5
        ⟨[ValidatorAct.passDefault],
         ValidatorOutcome.raises (PyException.otherException "boom")⟩
        ⟨false, [], []⟩).map fun s => s.sent.length) = Except.ok 2 := by
  rfl

/-- C1 (amended): from a fresh run (flag false), the number of deliveries is
exactly the validator's own explicit reports, plus one classified delivery
when it raises, plus one default delivery when it returns normally having
reported nothing; hence with no explicit validator report there is exactly
one delivery per run — whether the validator raised or not — with
`result_sent` ending true, while an explicit report followed by a raise
yields one extra delivery. -/
theorem runValidate_delivery_count (wd : String) (t : Nat)
    (sent0 : List SentResult) (p : List String) (acts : List ValidatorAct)
    (outcome : ValidatorOutcome) :
    ∃ s', run_validate wd t ⟨acts, outcome⟩ ⟨false, sent0, p⟩ = Except.ok s' ∧
      s'.result_sent = true ∧
      s'.sent.length = sent0.length +
        (match outcome with
         | .raises _ => acts.length + 1
         | .normal => if acts.isEmpty then 1 else acts.length) := by
  cases outcome with
  | raises e =>
    refine ⟨_, rfl, rfl, ?_⟩
    simp only [run_validate, send_result, List.length_append,
      foldl_runAct_sent_length, List.length_cons, List.length_nil]
    omega
  | normal =>
    by_cases h : acts = []
    · subst h
      exact ⟨_, rfl, rfl, by
        simp [run_validate, send_pass_result_default, send_pass_result,
          send_result]⟩
    · refine ⟨_, rfl, ?_, ?_⟩
      · simp [run_validate, foldl_runAct_result_sent_of_ne _ _ h]
      · simp [run_validate, foldl_runAct_result_sent_of_ne _ _ h,
          foldl_runAct_sent_length, h]

/-- C2: every exception the validator's entry point raises (over the whole
modelled `Exception` hierarchy: pexpect-wrapping failures, harness
`JobException`s, and anything else) is caught by the single handler of
`_run_validate`, classified by the lines 102-131 logic, handed to
`_send_result`, and the call returns normally — it never re-raises. -/
theorem runValidate_catches_all (wd : String) (t : Nat)
    (acts : List ValidatorAct) (e : PyException) (s0 : JobState) :
    ∃ s', run_validate wd t ⟨acts, .raises e⟩ s0 = Except.ok s' ∧
      (∃ rest, s'.sent = rest ++ [classifiedSent t e]) ∧
      s'.result_sent = true := by
  exact ⟨_, rfl, ⟨_, rfl⟩, rfl⟩

/-- C3 counterexample: when the validator raises, `_run_validate` returns
through the handler's `return` (line 133) and the `sys.path = old_path`
rollback of line 139 never runs: after the call the search path still has
the working directory prepended, so "restores the previous search path
afterwards unconditionally ... including in the case where the validator
raised" is false on the code. -/
theorem runValidate_path_cex :
    ((run_validate "/work/" 5
        ⟨[], ValidatorOutcome.raises (PyException.otherException "x")⟩
        ⟨false, [], ["/usr/lib"]⟩).map fun s => s.path)
      = Except.ok ["/work/", "/usr/lib"] ∧
    ["/work/", "/usr/lib"] ≠ ["/usr/lib"] := by
  exact ⟨rfl, by decide⟩

/-- C3 (amended): `_run_validate` prepends the working directory to the
search path for the validator call and restores the previous path when the
validator returns normally; when the validator raises, the handler returns
early and the working directory remains prepended to the search path. -/
theorem runValidate_path_restore (wd : String) (t : Nat)
    (acts : List ValidatorAct) (s0 : JobState) :
    ((run_validate wd t ⟨acts, .normal⟩ s0).map fun s => s.path)
        = Except.ok s0.path ∧
    ∀ e, ((run_validate wd t ⟨acts, .raises e⟩ s0).map fun s => s.path)
        = Except.ok (wd :: s0.path) := by
  constructor
  · simp only [run_validate, Except.map]
  · intro e
    simp only [run_validate, Except.map, send_result]
    simp [foldl_runAct_path]

/-! ## Claims about the classifier branches -/

/-- C5 counterexample: a process that ended (EOF before the expected output)
with KNOWN exit status 0 is classified with the sentinel error code, not
with the exit status: line 110's `if e.instance._spawn.exitstatus:` is a
truthiness test, so "the reported error code equals the process's exit
status whenever that status is known" is false at exit status 0. -/
theorem classifiedEof_zero_cex :
    (classifiedSent 5
        (PyException.runningProgramExc .eof ⟨some 0, "out"⟩)).error_code
      ≠ (0 : Int) ∧
    (classifiedSent 5
        (PyException.runningProgramExc .eof ⟨some 0, "out"⟩)).error_code
      = UNSPECIFIC_ERROR := by
  exact ⟨by decide, rfl⟩

/-- C5 (amended): for an EOF-classified interactive failure the error code
equals the process's exit status when that status is known AND nonzero, and
is the sentinel -9999 when the status is unknown or zero; both messages
state that the program terminated unexpectedly and append the output
captured so far. -/
theorem classifiedEof_code_and_messages (t : Nat) (es : Option Int)
    (out : String) :
    (classifiedSent t (.runningProgramExc .eof ⟨es, out⟩)).error_code =
      (match es with
       | some n => if n ≠ 0 then n else UNSPECIFIC_ERROR
       | none => UNSPECIFIC_ERROR) ∧
    (classifiedSent t (.runningProgramExc .eof ⟨es, out⟩)).info_student =
      "Your program terminated unexpectedly." ++ "\n\nOutput so far: " ++ out ∧
    (classifiedSent t (.runningProgramExc .eof ⟨es, out⟩)).info_tutor =
      "The student program terminated unexpectedly." ++ "\n\nOutput so far: "
        ++ out := by
  refine ⟨?_, rfl, rfl⟩
  cases es <;> rfl

/-- C6: a timeout-classified interactive failure reports the sentinel error
code; the submitter message states the execution was cancelled after the
configured number of seconds (it contains the configured timeout value), the
grader message states the same, and the output captured so far is appended
to both. -/
theorem classifiedTimeout_messages (t : Nat) (es : Option Int)
    (out : String) :
    (classifiedSent t (.runningProgramExc .timeoutExc ⟨es, out⟩)).error_code
      = UNSPECIFIC_ERROR ∧
    (classifiedSent t (.runningProgramExc .timeoutExc ⟨es, out⟩)).info_student
      = "The execution of your program was cancelled, since it took longer than "
        ++ toString t ++ " seconds. " ++ "\n\nOutput so far: " ++ out ∧
    (classifiedSent t (.runningProgramExc .timeoutExc ⟨es, out⟩)).info_tutor
      = "The execution of the program was cancelled due to the timeout of "
        ++ toString t ++ " seconds. " ++ "\n\nOutput so far: " ++ out ∧
    ∃ pre post,
      (classifiedSent t
        (.runningProgramExc .timeoutExc ⟨es, out⟩)).info_student
        = pre ++ toString t ++ post := by
  refine ⟨rfl, rfl, rfl,
    "The execution of your program was cancelled, since it took longer than ",
    " seconds. " ++ "\n\nOutput so far: " ++ out, ?_⟩
  simp [classifiedSent, String.append_assoc]

/-! ## Claims about the build steps, happy path, and queries -/

/-- C4: the claim is right and the code is wrong: the `FileNotFoundError` of
`run_configure` (job.py line 179) is raised before the `try`, ignoring
`mandatory`, so `run_configure(mandatory=False)` — and hence `run_build` —
DOES raise whenever the working directory has no `configure` script, against
the code's own purpose of the `mandatory` flag (honoured three lines below
for execution failures) and against the spec's "non-fatal if absent". The
third conjunct shows the adjacent behaviour that does hold: a present but
failing configure run is swallowed when not mandatory. -/
theorem runConfigure_absent_raises :
    run_configure [] none false =
      Except.error (PyException.fileNotFoundError
        "Could not find a configure script for execution.") ∧
    run_build [] none ⟨true, ""⟩ ⟨true, ""⟩ =
      Except.error (PyException.fileNotFoundError
        "Could not find a configure script for execution.") ∧
    run_configure ["configure"]
      (some (PyException.otherException "configure crashed")) false
      = Except.ok () := by
  exact ⟨rfl, rfl, rfl⟩

/-- C7: when the validator entry point returns normally with `result_sent`
still false, `_run_validate` auto-reports success with exactly the default
texts "All tests passed. Awesome!" (submitter) and "All tests passed."
(grader) and error code 0; and when the validator has already reported
explicitly (any non-empty sequence of explicit report calls), the automatic
fallback does not fire: the deliveries are exactly the validator's own. -/
theorem runValidate_auto_pass (wd : String) (t : Nat)
    (sent0 : List SentResult) (p : List String) (acts : List ValidatorAct) :
    run_validate wd t ⟨[], .normal⟩ ⟨false, sent0, p⟩ =
      Except.ok ⟨true,
        sent0 ++ [⟨"All tests passed. Awesome!", "All tests passed.", 0⟩],
        p⟩ ∧
    (acts ≠ [] → ∃ s',
      run_validate wd t ⟨acts, .normal⟩ ⟨false, sent0, p⟩ = Except.ok s' ∧
      s'.sent.length = sent0.length + acts.length) := by
  constructor
  · rfl
  · intro h
    refine ⟨_, rfl, ?_⟩
    simp [run_validate, foldl_runAct_result_sent_of_ne _ _ h,
      foldl_runAct_sent_length]

/-- C8: `ensure_files(filenames)` returns true iff every requested filename
is in the working directory's listing; vacuously true for the empty request;
and on the worked example with listing `["main.c", "README"]` the request
`["main.c"]` yields true while `["main.c", "test.c"]` yields false. It is a
pure query: in the embedding it is a function of the listing alone. -/
theorem ensureFiles_spec :
    (∀ (d fs : List String), ensure_files d fs = true ↔ ∀ f ∈ fs, f ∈ d) ∧
    (∀ d : List String, ensure_files d [] = true) ∧
    ensure_files ["main.c", "README"] ["main.c"] = true ∧
    ensure_files ["main.c", "README"] ["main.c", "test.c"] = false := by
  refine ⟨?_, fun d => rfl, by decide, by decide⟩
  intro d fs
  simp [ensure_files, List.all_eq_true, List.contains, List.elem_iff]

/-! ## Claims about `spawn_program` / `run_program` -/

/-- C9: the claim is right and the code is wrong: under `exclusive=True`
both `spawn_program` and `run_program` evaluate `self.config` as the
argument of `kill_longrunning` (job.py lines 225 and 247), but `Job`
defines only `_config` — the attribute lookup raises `AttributeError`
before `kill_longrunning` is ever invoked and no program is spawned or
run, against the method's own docstring ("The caller can demand exclusive
execution on this machine"). Without `exclusive`, the program starts
normally. -/
theorem exclusive_attribute_error :
    spawn_program true = ([], some (PyException.attributeError "config")) ∧
    run_program (.str "./prog") (.listV [.str "arg"]) true ⟨true, ""⟩ =
      ([], some (PyException.attributeError "config")) ∧
    spawn_program false = ([RunEvent.programStart], none) ∧
    (run_program (.str "./prog") (.listV [.str "arg"]) false ⟨true, ""⟩).1
      = [RunEvent.programStart] := by
  exact ⟨rfl, rfl, rfl, rfl⟩

/-- C10: the type-check `assert(type(arguments is list))` in `run_program`
(job.py line 241) asserts the truthiness of the class `bool` — the type of
the boolean `arguments is list` — so it passes for every value of
`arguments`: neither `run_program_cmdline` nor `run_program` can produce an
`AssertionError`, and a truthy non-list `arguments` (here the integer 7)
proceeds to the `name + arguments` concatenation step. -/
theorem runProgram_assert_always_passes (name arguments : PyVal)
    (exclusive : Bool) (execResult : Result) :
    pyTruthy (pyType (pyIsList arguments)) = true ∧
    run_program_cmdline name arguments
      ≠ Except.error PyException.assertionError ∧
    (run_program name arguments exclusive execResult).2
      ≠ some PyException.assertionError ∧
    run_program_cmdline (.str "prog") (.int 7)
      = pyAdd (.listV [.str "prog"]) (.int 7) := by
  have hassert : ∀ a : PyVal, pyTruthy (pyType (pyIsList a)) = true := by
    intro a; cases a <;> rfl
  have hAdd : ∀ x y : PyVal,
      pyAdd x y ≠ Except.error PyException.assertionError := by
    intro x y; cases x <;> cases y <;> simp [pyAdd]
  have hcmd : ∀ n a : PyVal,
      run_program_cmdline n a ≠ Except.error PyException.assertionError := by
    intro n a
    unfold run_program_cmdline
    cases hp : pyTruthy a
    · simp [hp]
    · simp only [hp, hassert a, if_true]
      exact hAdd _ a
  refine ⟨hassert arguments, hcmd name arguments, ?_, rfl⟩
  cases hc : run_program_cmdline name arguments with
  | error e =>
    have he : e ≠ PyException.assertionError := by
      intro h
      exact hcmd name arguments (h ▸ hc)
    simp [run_program, hc, he]
  | ok v =>
    have hg : getattrJob "config"
        = Except.error (PyException.attributeError "config") := rfl
    cases exclusive <;> cases hr : execResult.is_ok <;>
      simp [run_program, hc, hg, hr, jobExceptionOfResult]

end OpenSubmit
